import Mathlib

/-!
Shallow embedding of `src/xgtsh.py` (the xGT command-line shell), the
command interpreter and job-lifecycle reporting engine.  Python strings
are Lean `String`s, Python ints are Lean `Int`/`Nat`, Python `None` is
`Option.none`, and a Python exception escaping a handler is modelled as
`Except.error` carrying the exception name.  Each `do_<verb>` method of
the `XgtCli` class becomes a Lean function from a `Session` (the shell
object's state plus the ambient xgt client-library version) and the
trailing text of the command line to a `HRes` recording the lines
printed, the service calls issued, the boolean termination signal (or
the escaped exception), and the resulting session state.
-/

namespace Xgtsh

/-- Helper for `pySplit`: structural scan of the character list,
accumulating the current token in reverse. -/
def pySplitAux : List Char → List Char → List String
  | [], cur => if cur.isEmpty then [] else [String.mk cur.reverse]
  | c :: cs, cur =>
    if c.isWhitespace then
      if cur.isEmpty then pySplitAux cs []
      else String.mk cur.reverse :: pySplitAux cs []
    else pySplitAux cs (c :: cur)

/-- Python `str.split()` with no arguments: split on whitespace runs,
producing no empty tokens. -/
def pySplit (s : String) : List String :=
  pySplitAux s.data []

/-- Python `str.strip()`: remove leading and trailing whitespace. -/
def pyStrip (s : String) : String :=
  String.mk (((s.data.dropWhile Char.isWhitespace).reverse.dropWhile
    Char.isWhitespace).reverse)

/-- Python `str.startswith(pre)` over the character lists. -/
def strStartsWith (s pre : String) : Bool :=
  pre.data.isPrefixOf s.data

/-- Python `str.lower()` over the character lists (ASCII). -/
def strToLower (s : String) : String :=
  String.mk (s.data.map Char.toLower)

/-- Python `line.split(None, 1)` on a stripped, nonempty line: the first
whitespace-free token and the remainder with the separating whitespace
removed. -/
def splitVerb (line : String) : String × String :=
  let cs := line.data
  let verb := cs.takeWhile (fun c => ¬ c.isWhitespace)
  let rest := (cs.dropWhile (fun c => ¬ c.isWhitespace)).dropWhile Char.isWhitespace
  (String.mk verb, String.mk rest)

/-- Python `str.isnumeric()` restricted to ASCII input: nonempty and all
characters are decimal digits (the shell's config values are ASCII). -/
def pyIsNumeric (s : String) : Bool :=
  ¬ s.data.isEmpty && s.data.all Char.isDigit

/-- Value of a string of decimal digits. -/
def digitsToNat (l : List Char) : Nat :=
  l.foldl (fun a c => 10 * a + (c.toNat - 48)) 0

/-- Python `int(s)` on the strings accepted by `do_config`'s numeric
test: an optional leading minus sign followed by decimal digits. -/
def pyInt (s : String) : Int :=
  match s.data with
  | '-' :: rest => - (digitsToNat rest : Int)
  | l => (digitsToNat l : Int)

/-- Helper for thousands-grouping: the input is the reversed digit list;
insert a comma after every three characters. -/
def commaGroupRev : List Char → List Char
  | a :: b :: c :: d :: rest => a :: b :: c :: ',' :: commaGroupRev (d :: rest)
  | l => l

/-- Python `format(n, ',')` for naturals: digits grouped in threes by
commas, as produced by the shell's `{...:,}` format specifiers. -/
def commaGroup (n : Nat) : String :=
  String.mk (commaGroupRev (toString n).data.reverse).reverse

/-- Helper for `intRange`: `n` consecutive integers starting at `s`. -/
def intRangeAux (s : Int) : Nat → List Int
  | 0 => []
  | n + 1 => s :: intRangeAux (s + 1) n

/-- Python `range(s, e + 1)` over mathematical integers: the ascending
list `s, s+1, ..., e` (empty when `e < s`). -/
def intRange (s e : Int) : List Int :=
  intRangeAux s (e + 1 - s).toNat

/-- A job record as consumed by the shell (owned by the external
service; only the attributes the shell reads are modelled).  Optional
diagnostic payloads that the Python code probes with `dir`/`is not
None` before reading become `Option` fields.  `timingInternal` embeds
the `_timing` attribute.  `reprString` stands for the external
library's `str()` rendering of the job object (used by `do_jobs`). -/
structure Job where
  id : Int
  user : String
  status : String
  start_time : Int
  end_time : Int
  description : String
  query_plan : Option String
  visited_edges : Option String
  total_visited_edges : Option Int
  timing : Option (List String)
  timingInternal : Option (List String)
  schema : Option (List (String × String))
  reprString : String
  deriving Repr, DecidableEq

/-- A frame descriptor as returned by `get_frames` and friends: the
shell reads the name and the three count attributes. -/
structure Frame where
  name : String
  num_rows : Nat
  num_vertices : Nat
  num_edges : Nat
  deriving Repr, DecidableEq

/-- The record returned by `get_frame(name)`: schema, optional edge
endpoints (`source_name`/`target_name`, probed with `hasattr`), and the
rows handed back by `get_data(0, 20)` (each row's pretty-printed text,
rendering owned by the external `pprint` library). -/
structure FrameInfo where
  schema : List (String × String)
  source_target : Option (String × String)
  get_data_result : List String
  deriving Repr, DecidableEq

/-- Per-operation access-control label sets of a frame, as returned by
`get_frame_labels`. -/
structure Labels where
  create : List String
  read : List String
  update : List String
  delete : List String
  deriving Repr, DecidableEq

/-- The connected xGT service as the shell observes it: one field per
query the handlers perform.  The shell holds no durable mirror, so a
fixed snapshot suffices for the per-command claims. -/
structure Server where
  namespaces : List String
  default_namespace : String
  jobs : List Job
  config : List (String × String)
  set_config_error : Option String
  frame_by_name : String → Option FrameInfo
  frames_of : String → String → List Frame
  all_frames : String → List Frame
  frame_labels : String → Labels
  user_labels_result : Except String (List String)
  server_version : String
  max_user_memory : Nat
  free_user_memory : Nat
  query_data : String → List String

/-- The shell's own state: the (possibly absent) server handle, the
verbose and debug flags, and the version triple of the ambient xgt
client module (read by `__version_is_since`). -/
structure Session where
  server : Option Server
  verbose : Bool
  debug : Bool
  xgt_version : Nat × Nat × Nat

/-- A coerced config value as passed to `set_config` by `do_config`. -/
inductive ConfigValue where
  | b (v : Bool)
  | i (v : Int)
  | s (v : String)
  deriving Repr, DecidableEq

/-- One call into the external service, recorded in order of issue. -/
inductive SvcCall where
  | cancel_job (id : Int)
  | get_config
  | set_config (param : String) (value : ConfigValue)
  | get_default_namespace
  | set_default_namespace (ns : String)
  | drop_frame (name : String)
  | drop_frames (names : List String)
  | get_jobs
  | get_namespaces
  | run_job (query : String)
  | get_frame (name : String)
  | get_frames (ns : String) (kind : Option String)
  | get_edge_frames (ns : String)
  | get_table_frames (ns : String)
  | get_vertex_frames (ns : String)
  | wait_for_metrics
  | get_frame_labels (name : String)
  | get_user_labels
  | save_frame (name : String) (filename : String)
  | frame_get_data (name : String)
  deriving Repr, DecidableEq

/-- Result of running one handler: printed lines, issued service calls,
the returned termination signal (`Except.error` when an exception
escapes the handler), and the session afterwards. -/
structure HRes where
  out : List String
  calls : List SvcCall
  ret : Except String Bool
  sess : Session

/-- A normally returning handler result (Python `return False`/`True`
with no state change unless stated). -/
def mkOk (sess : Session) (out : List String) (calls : List SvcCall) : HRes :=
  { out := out, calls := calls, ret := Except.ok false, sess := sess }

/-- A handler result for an uncaught Python exception. -/
def mkErr (sess : Session) (out : List String) (calls : List SvcCall)
    (e : String) : HRes :=
  { out := out, calls := calls, ret := Except.error e, sess := sess }

/-- The shared "Not connected to a server" early return. -/
def notConnected (sess : Session) : HRes :=
  mkOk sess ["Not connected to a server"] []

/-- The shell prompt, interpolated into the usage messages. -/
def prompt : String := "xGT>> "

/-- A single-quote character as a string (used to render Python list
reprs without writing a quote literal). -/
def sq : String := String.mk [Char.ofNat 39]

/-- Python `repr` of a list of plain ASCII strings, as printed by
`do_config`'s `Unknown config parameters: {fields}` message. -/
def pyListRepr (l : List String) : String :=
  "[" ++ String.intercalate ", " (l.map (fun f => sq ++ f ++ sq)) ++ "]"

/-- Python `int(s)` as a partial function: optional sign followed by at
least one decimal digit succeeds, everything else raises `ValueError`
(modelled as `none`; digit-group underscores are not modelled). -/
def pyParseInt (s : String) : Option Int :=
  match s.data with
  | '-' :: rest =>
      if ¬ rest.isEmpty && rest.all Char.isDigit
      then some (- (digitsToNat rest : Int)) else none
  | '+' :: rest =>
      if ¬ rest.isEmpty && rest.all Char.isDigit
      then some (digitsToNat rest : Int) else none
  | l =>
      if ¬ l.isEmpty && l.all Char.isDigit
      then some (digitsToNat l : Int) else none

/-- Stable insertion of a key/value pair into a key-sorted list (used
to model Python `sorted(config.items())`). -/
def insertPair (kv : String × String) :
    List (String × String) → List (String × String)
  | [] => [kv]
  | x :: xs => if kv.1 ≤ x.1 then kv :: x :: xs else x :: insertPair kv xs

/-- Python `sorted` on key/value pairs (keys are distinct dict keys, so
sorting by key alone matches sorting the pairs). -/
def sortPairs : List (String × String) → List (String × String)
  | [] => []
  | x :: xs => insertPair x (sortPairs xs)

/-- Stable insertion of an integer into a sorted list. -/
def insertInt (a : Int) : List Int → List Int
  | [] => [a]
  | x :: xs => if a ≤ x then a :: x :: xs else x :: insertInt a xs

/-- Python `sorted` on a list of integers. -/
def sortInts : List Int → List Int
  | [] => []
  | x :: xs => insertInt x (sortInts xs)

/-- Python `f"{n:3d}"`: decimal rendering right-justified to width 3. -/
def padLeft3 (i : Int) : String :=
  let s := toString i
  if s.length ≥ 3 then s else String.mk (List.replicate (3 - s.length) ' ') ++ s

/-- Rendering of a schema (list of name/type pairs) for the `schema:`
lines; Python prints the list repr, which is presentational only. -/
def pairsStr (l : List (String × String)) : String :=
  String.intercalate ", " (l.map (fun p => p.1 ++ ":" ++ p.2))

/-- `XgtCli.do_cancel` (src/xgtsh.py:106-122). -/
def do_cancel (sess : Session) (line : String) : HRes :=
  match sess.server with
  | none => notConnected sess
  | some _ =>
    let fields := pySplit line
    if fields.length < 1 then
      mkOk sess ["Usage: " ++ prompt ++ " cancel <job-id>"] []
    else
      match pyParseInt fields.head! with
      | none =>
          mkOk sess ["Usage: " ++ prompt ++ " cancel <job-id>",
                     "where:  <job-id> must be an integer"] []
      | some job_id => mkOk sess [] [SvcCall.cancel_job job_id]

/-- The coercion `do_config` applies to the value token of a
`config set` line (src/xgtsh.py:135-138). -/
def coerceValue (value : String) : ConfigValue :=
  if strToLower value = "false" ∨ strToLower value = "true" then
    ConfigValue.b (strToLower value = "true")
  else if pyIsNumeric value ∨
      (value.data.head? = some '-' ∧ pyIsNumeric (String.mk value.data.tail)) then
    ConfigValue.i (pyInt value)
  else
    ConfigValue.s value

/-- `XgtCli.do_config` (src/xgtsh.py:124-149).  Python evaluates
`fields[0] == 'set' and fields[2] == '='` left to right: when the first
token is `set` but there is no third token, the index raises an
uncaught `IndexError`; likewise for `fields[3]` when the value token is
missing.  The `xgt.XgtError` from `set_config` is caught and printed. -/
def do_config (sess : Session) (line : String) : HRes :=
  match sess.server with
  | none => notConnected sess
  | some srv =>
    let fields := pySplit line
    if fields.length < 1 then
      mkOk sess ((sortPairs srv.config).map (fun kv => kv.1 ++ " = " ++ kv.2))
        [SvcCall.get_config]
    else if fields.head! = "set" then
      match fields.get? 2 with
      | none => mkErr sess [] [] "IndexError"
      | some t2 =>
        if t2 = "=" then
          match fields.get? 3 with
          | none => mkErr sess [] [] "IndexError"
          | some value =>
            let call := SvcCall.set_config (fields.get! 1) (coerceValue value)
            match srv.set_config_error with
            | some e => mkOk sess ["Error: " ++ e] [call]
            | none => mkOk sess [] [call]
        else mkOk sess ["Unknown config parameters: " ++ pyListRepr fields] []
    else mkOk sess ["Unknown config parameters: " ++ pyListRepr fields] []

/-- `XgtCli.do_debug` (src/xgtsh.py:151-159). -/
def do_debug (sess : Session) (line : String) : HRes :=
  if line.length > 1 ∧ strToLower line = "on" then
    mkOk { sess with debug := true } [] []
  else
    mkOk { sess with debug := false } [] []

/-- `XgtCli.do_default_namespace` (src/xgtsh.py:161-167).  There is no
null-server check: when the handle is absent the attribute access on
`None` raises an uncaught `AttributeError`. -/
def do_default_namespace (sess : Session) (line : String) : HRes :=
  if line.length < 1 then
    match sess.server with
    | none => mkErr sess [] [] "AttributeError"
    | some srv =>
        mkOk sess ["Default namespace: " ++ srv.default_namespace]
          [SvcCall.get_default_namespace]
  else
    match sess.server with
    | none => mkErr sess [] [] "AttributeError"
    | some _ => mkOk sess [] [SvcCall.set_default_namespace line]

/-- `XgtCli.do_drop` (src/xgtsh.py:170-176).  No null-server check. -/
def do_drop (sess : Session) (line : String) : HRes :=
  if line.length < 1 then
    mkOk sess ["Command:  DROP <frame-name>"] []
  else
    match sess.server with
    | none => mkErr sess [] [] "AttributeError"
    | some _ => mkOk sess [] [SvcCall.drop_frame line]

/-- `XgtCli.do_exit` (src/xgtsh.py:178-186): returns `True`. -/
def do_exit (sess : Session) (_line : String) : HRes :=
  { out := [], calls := [], ret := Except.ok true, sess := sess }

/-- `XgtCli.do_EOF` (src/xgtsh.py:188-191): prints a newline and
delegates to `do_exit`. -/
def do_EOF (sess : Session) (line : String) : HRes :=
  let r := do_exit sess line
  { r with out := "" :: r.out }

/-- One job's report block (`__process_job_command` loop body,
src/xgtsh.py:655-684), split so the status-conditional timing lines are
a named segment.  This is `timingBlock`: the commented-out
`unknown_job_status` early return (657-658) is dead code, so every
status other than `running` and `scheduled` reaches the start/end/
duration branch. -/
def timingBlock (j : Job) : List String :=
  if j.status = "running" then
    ["  start time: " ++ toString j.start_time]
  else if j.status ≠ "scheduled" then
    ["    start time: " ++ toString j.start_time,
     "      end time: " ++ toString j.end_time,
     "      duration: " ++ toString (j.end_time - j.start_time)]
  else []

/-- The optional trailing sections of a job block
(src/xgtsh.py:667-684): description, query plan, visited edges, total
visited, timing, `_timing`, schema — each guarded by the presence and
nonemptiness probes of the source. -/
def jobTail (j : Job) : List String :=
  (if j.description.length > 0 then ["   description: " ++ j.description] else [])
  ++ (match j.query_plan with
      | some qp => if qp.length > 0 then ["   query plan: " ++ qp] else []
      | none => [])
  ++ (match j.visited_edges with
      | some ve => if ve.length > 0 then [" visited edges: " ++ ve] else []
      | none => [])
  ++ (match j.total_visited_edges with
      | some tv => [" total visited: " ++ toString tv]
      | none => [])
  ++ (match j.timing with
      | some ts => if ts.length > 0 then "        timing:" :: ts else []
      | none => [])
  ++ (match j.timingInternal with
      | some ts => if ts.length > 0 then "       _timing:" :: ts else []
      | none => [])
  ++ (match j.schema with
      | some sch => if sch.length > 0 then ["       schema: " ++ pairsStr sch] else []
      | none => [])

/-- The full report block for one job: header, then the
status-conditional timing lines, then the optional sections. -/
def jobBlock (j : Job) : List String :=
  ("Job #" ++ toString j.id ++ ", username: " ++ j.user ++ ", status "
    ++ j.status ++ ":")
  :: timingBlock j ++ jobTail j

/-- The `jobs_map` dict of `__process_job_command` and `do_jobs`: keyed
by id, later list entries overwrite earlier ones. -/
def jobsMap (jobs : List Job) (i : Int) : Option Job :=
  jobs.reverse.find? (fun j => j.id == i)

/-- The range loop of `__process_job_command` (src/xgtsh.py:652-684):
for each id of `range(start_job, end_job + 1)` that is a key of
`jobs_map`, emit its block; ids not present produce nothing. -/
def jobRangeOutput (jobs : List Job) (s e : Int) : List String :=
  (intRange s e).flatMap (fun i => ((jobsMap jobs i).map jobBlock).getD [])

/-- `XgtCli.__process_job_command` (src/xgtsh.py:634-685): token-count
check, integer parsing of one or two arguments (a `ValueError` from
either is caught by the bare `except`), then `get_jobs` and the range
loop. -/
def process_job_command (srv : Server) (line : String) :
    List String × List SvcCall :=
  let msg := "Command format: job <job_id> (<end-job-number>)"
  match pySplit line with
  | [a] =>
      match pyParseInt a with
      | none => ([msg], [])
      | some s => (jobRangeOutput srv.jobs s s, [SvcCall.get_jobs])
  | [a, b] =>
      match pyParseInt a, pyParseInt b with
      | some s, some e => (jobRangeOutput srv.jobs s e, [SvcCall.get_jobs])
      | _, _ => ([msg], [])
  | _ => ([msg], [])

/-- `XgtCli.do_job` (src/xgtsh.py:193-205). -/
def do_job (sess : Session) (line : String) : HRes :=
  match sess.server with
  | none => notConnected sess
  | some srv =>
      let r := process_job_command srv line
      mkOk sess r.1 r.2

/-- `XgtCli.do_jobs` (src/xgtsh.py:207-224): jobs listed in ascending
id order; a nonempty argument filters on exact status equality with the
whole trailing line. -/
def do_jobs (sess : Session) (line : String) : HRes :=
  match sess.server with
  | none => notConnected sess
  | some srv =>
      let out := (sortInts (srv.jobs.map Job.id)).flatMap (fun i =>
        match jobsMap srv.jobs i with
        | some j =>
            if line.length < 1 ∨ j.status = line
            then [padLeft3 i ++ ": " ++ j.reprString] else []
        | none => [])
      mkOk sess out [SvcCall.get_jobs]

/-- `XgtCli.do_memory` (src/xgtsh.py:226-234).  The memory sizes are
attribute reads; the `:,.3f` float formatting of the source is
rendered over the natural-number model. -/
def do_memory (sess : Session) (_line : String) : HRes :=
  match sess.server with
  | none => notConnected sess
  | some srv =>
      let footprint := srv.max_user_memory - srv.free_user_memory
      mkOk sess ["Current RAM footprint: " ++ commaGroup footprint
        ++ " GiB used out of " ++ commaGroup srv.max_user_memory
        ++ " GiB available."] []

/-- `XgtCli.do_namespaces` (src/xgtsh.py:236-243). -/
def do_namespaces (sess : Session) (_line : String) : HRes :=
  match sess.server with
  | none => notConnected sess
  | some srv =>
      mkOk sess [String.intercalate ", " srv.namespaces] [SvcCall.get_namespaces]

/-- `XgtCli.do_query` (src/xgtsh.py:245-262): runs the line as a job
and prints its data; the DataFrame/pprint rendering belongs to the
external libraries and is modelled by the server's `query_data`. -/
def do_query (sess : Session) (line : String) : HRes :=
  match sess.server with
  | none => notConnected sess
  | some srv => mkOk sess (srv.query_data line) [SvcCall.run_job line]

/-- `XgtCli.do_save` (src/xgtsh.py:264-278).  No null-server check: on
a disconnected session the attribute access raises and the bare
`except` reports the frame as nonexistent; a missing frame raises from
`get_frame` (after the call is issued) with the same report. -/
def do_save (sess : Session) (line : String) : HRes :=
  let fields := pySplit line
  if fields.length < 2 then
    mkOk sess ["Usage: " ++ prompt ++ " save <frame-name> <filename>"] []
  else
    let frame_name := fields.get! 0
    let filename := fields.get! 1
    match sess.server with
    | none => mkOk sess ["Frame " ++ frame_name ++ " does not exist"] []
    | some srv =>
        match srv.frame_by_name frame_name with
        | none =>
            mkOk sess ["Frame " ++ frame_name ++ " does not exist"]
              [SvcCall.get_frame frame_name]
        | some _ =>
            mkOk sess []
              [SvcCall.get_frame frame_name,
               SvcCall.save_frame frame_name filename]

/-- `XgtCli.do_schema` (src/xgtsh.py:280-296).  The heading is printed
before the lookup; no null-server check (same bare-`except` shape as
`do_save`); the schema repr and the source/target line for edge frames
follow on success. -/
def do_schema (sess : Session) (line : String) : HRes :=
  let head := "Showing schema of frame " ++ line
  match sess.server with
  | none => mkOk sess [head, "Frame " ++ line ++ " does not exist"] []
  | some srv =>
      match srv.frame_by_name line with
      | none =>
          mkOk sess [head, "Frame " ++ line ++ " does not exist"]
            [SvcCall.get_frame line]
      | some fr =>
          mkOk sess ([head, "Schema: " ++ pairsStr fr.schema]
            ++ (match fr.source_target with
                | some st => ["Source frame: " ++ st.1 ++ ", Target frame: " ++ st.2]
                | none => []))
            [SvcCall.get_frame line]

/-- `XgtCli.do_scroll` (src/xgtsh.py:298-312).  Same lookup shape as
`do_save`; on success prints `Data:` and the rows of
`get_data(0, 20)`. -/
def do_scroll (sess : Session) (line : String) : HRes :=
  match sess.server with
  | none => mkOk sess ["Frame " ++ line ++ " does not exist"] []
  | some srv =>
      match srv.frame_by_name line with
      | none =>
          mkOk sess ["Frame " ++ line ++ " does not exist"]
            [SvcCall.get_frame line]
      | some fr =>
          mkOk sess ("Data:" :: fr.get_data_result)
            [SvcCall.get_frame line, SvcCall.frame_get_data line]

/-- `XgtCli.__get_frame_labels_str` (src/xgtsh.py:591-606): the ACL
suffix of a frame line; empty when every CRUD label set is empty (the
service-error path of the source is not exercised by this model). -/
def get_frame_labels_str (srv : Server) (name : String) : String :=
  let ls := srv.frame_labels name
  let acl_parts := ([("create", ls.create), ("read", ls.read),
      ("update", ls.update), ("delete", ls.delete)]).filterMap
    (fun p => if p.2.isEmpty then none
              else some (p.1 ++ "=" ++ String.intercalate "," p.2))
  if acl_parts.isEmpty then ""
  else "  [ACLs: " ++ String.intercalate "; " acl_parts ++ "]"

/-- The per-frame verbosity filter of `do_show` and friends: internal
frames (reserved prefix `xgt__`) are hidden unless verbose. -/
def showFilter (verbose : Bool) (f : Frame) : Bool :=
  verbose || ¬ strStartsWith f.name "xgt__"

/-- `XgtCli.do_show` (src/xgtsh.py:314-351).  Each kind lists its
frames through the verbosity filter and then prints a running total
accumulated over exactly the printed frames.  Note src/xgtsh.py:337:
the vertex total accumulates `vertex.num_rows` while the vertex line
prints `vertex.num_vertices`. -/
def do_show (sess : Session) (line : String) : HRes :=
  match sess.server with
  | none => notConnected sess
  | some srv =>
    let fields := pySplit line
    if fields.length < 1 then
      mkOk sess ["Usage: " ++ prompt ++ " show <namespace>"] []
    else
      let ns := fields.head!
      let printedT := (srv.frames_of ns "table").filter (showFilter sess.verbose)
      let tLines := printedT.map (fun t =>
        "TableFrame " ++ t.name ++ " has " ++ commaGroup t.num_rows
          ++ " rows" ++ get_frame_labels_str srv t.name)
      let totalT := (printedT.map Frame.num_rows).sum
      let printedV := (srv.frames_of ns "vertex").filter (showFilter sess.verbose)
      let vLines := printedV.map (fun v =>
        "VertexFrame " ++ v.name ++ " has " ++ commaGroup v.num_vertices
          ++ " vertices" ++ get_frame_labels_str srv v.name)
      let totalV := (printedV.map Frame.num_rows).sum
      let printedE := (srv.frames_of ns "edge").filter (showFilter sess.verbose)
      let eLines := printedE.map (fun e =>
        "EdgeFrame " ++ e.name ++ " has " ++ commaGroup e.num_edges
          ++ " edges" ++ get_frame_labels_str srv e.name)
      let totalE := (printedE.map Frame.num_edges).sum
      mkOk sess
        (tLines ++ ["Total table rows over all frames: " ++ commaGroup totalT]
          ++ vLines ++ ["Total vertices over all frames: " ++ commaGroup totalV]
          ++ eLines ++ ["Total edges over all frames: " ++ commaGroup totalE])
        ([SvcCall.get_frames ns (some "table")]
          ++ printedT.map (fun t => SvcCall.get_frame_labels t.name)
          ++ [SvcCall.get_frames ns (some "vertex")]
          ++ printedV.map (fun v => SvcCall.get_frame_labels v.name)
          ++ [SvcCall.get_frames ns (some "edge")]
          ++ printedE.map (fun e => SvcCall.get_frame_labels e.name))

/-- `XgtCli.do_show_frames` (src/xgtsh.py:353-390). -/
def do_show_frames (sess : Session) (_line : String) : HRes :=
  match sess.server with
  | none => notConnected sess
  | some srv =>
      let ns := srv.default_namespace
      let tables := srv.frames_of ns "table"
      let vertices := srv.frames_of ns "vertex"
      let edges := srv.frames_of ns "edge"
      let tSec := if tables.isEmpty then [] else
        "Table Frames:" :: (tables.filter (showFilter sess.verbose)).map
          (fun t => "  " ++ t.name ++ " (" ++ commaGroup t.num_rows ++ " rows)")
      let vSec := if vertices.isEmpty then [] else
        "Vertex Frames:" :: (vertices.filter (showFilter sess.verbose)).map
          (fun v => "  " ++ v.name ++ " (" ++ commaGroup v.num_vertices ++ " vertices)")
      let eSec := if edges.isEmpty then [] else
        "Edge Frames:" :: (edges.filter (showFilter sess.verbose)).map
          (fun e => "  " ++ e.name ++ " (" ++ commaGroup e.num_edges ++ " edges)")
      let tail := if tables.isEmpty ∧ vertices.isEmpty ∧ edges.isEmpty
        then ["  No frames found"] else []
      mkOk sess
        (["Frames in namespace " ++ sq ++ ns ++ sq ++ ":", ""]
          ++ tSec ++ vSec ++ eSec ++ tail)
        [SvcCall.get_default_namespace,
         SvcCall.get_frames ns (some "table"),
         SvcCall.get_frames ns (some "vertex"),
         SvcCall.get_frames ns (some "edge")]

/-- `XgtCli.do_verbose` (src/xgtsh.py:392-399). -/
def do_verbose (sess : Session) (line : String) : HRes :=
  let fields := pySplit line
  if fields.length < 1 ∨ strToLower fields.head! ≠ "off" then
    mkOk { sess with verbose := true } [] []
  else
    mkOk { sess with verbose := false } [] []

/-- The `xgt.__version__` string of the ambient client module. -/
def clientVersionStr (v : Nat × Nat × Nat) : String :=
  toString v.1 ++ "." ++ toString v.2.1 ++ "." ++ toString v.2.2

/-- `XgtCli.do_version` (src/xgtsh.py:401-408). -/
def do_version (sess : Session) (_line : String) : HRes :=
  let head := "Client version: " ++ clientVersionStr sess.xgt_version
  match sess.server with
  | none => mkOk sess [head, "Server is not connected"] []
  | some srv => mkOk sess [head, "Server version: " ++ srv.server_version] []

/-- `XgtCli.do_user_labels` (src/xgtsh.py:410-425). -/
def do_user_labels (sess : Session) (_line : String) : HRes :=
  match sess.server with
  | none => notConnected sess
  | some srv =>
      match srv.user_labels_result with
      | Except.error e =>
          mkOk sess ["Error retrieving user labels: " ++ e] [SvcCall.get_user_labels]
      | Except.ok ls =>
          if ls.isEmpty then
            mkOk sess ["User has no security labels"] [SvcCall.get_user_labels]
          else
            mkOk sess ("User security labels:" :: ls.map (fun l => "  " ++ l))
              [SvcCall.get_user_labels]

/-- `XgtCli.__version_is_since` (src/xgtsh.py:687-697). -/
def version_is_since (v : Nat × Nat × Nat) (major minor patch : Nat) : Bool :=
  if v.1 > major then true
  else if v.1 < major then false
  else if v.2.1 > minor then true
  else if v.2.1 < minor then false
  else v.2.2 ≥ patch

/-- `XgtCli.do_zap` (src/xgtsh.py:427-463).  On xgt ≥ 1.14.0 one bulk
`drop_frames` call deletes everything; otherwise edge frames are
dropped one by one, then (after `wait_for_metrics`) table frames, then
vertex frames, with an optional verbose line per frame, and the count
is `len(tables) + len(vertices) + len(edges)`.  The final report is
unconditional. -/
def do_zap (sess : Session) (line : String) : HRes :=
  match sess.server with
  | none => notConnected sess
  | some srv =>
    let fields := pySplit line
    if fields.length < 1 then
      mkOk sess ["Usage: " ++ prompt ++ " zap <namespace>"] []
    else
      let ns := fields.head!
      if version_is_since sess.xgt_version 1 14 0 then
        let frames := srv.all_frames ns
        mkOk sess
          ["Deleted " ++ toString frames.length ++ " frames in namespace " ++ ns]
          [SvcCall.get_frames ns none,
           SvcCall.drop_frames (frames.map Frame.name)]
      else
        let edges := srv.frames_of ns "edge"
        let tables := srv.frames_of ns "table"
        let vertices := srv.frames_of ns "vertex"
        let verboseLines := fun (kind : String) (fs : List Frame) =>
          if sess.verbose then fs.map (fun f => kind ++ " " ++ f.name ++ " deleted")
          else ([] : List String)
        mkOk sess
          (verboseLines "EdgeFrame" edges ++ verboseLines "TableFrame" tables
            ++ verboseLines "VertexFrame" vertices
            ++ ["Deleted " ++ toString (tables.length + vertices.length + edges.length)
                  ++ " frames in namespace " ++ ns])
          ([SvcCall.get_edge_frames ns]
            ++ edges.map (fun f => SvcCall.drop_frame f.name)
            ++ [SvcCall.wait_for_metrics, SvcCall.get_table_frames ns]
            ++ tables.map (fun f => SvcCall.drop_frame f.name)
            ++ [SvcCall.get_vertex_frames ns]
            ++ vertices.map (fun f => SvcCall.drop_frame f.name))

/-- `XgtCli._namespace_complete` (src/xgtsh.py:95-103): the completion
callback shared by `default_namespace`, `show`, and `zap`.  The
`line`/`begidx`/`endidx` parameters are only echoed by the verbose
debug print and do not affect the result. -/
def namespace_complete (sess : Session) (text : String) (_line : String)
    (_begidx _endidx : Nat) : List String :=
  match sess.server with
  | none => []
  | some srv => srv.namespaces.filter (fun ns => strStartsWith ns text)

/-- The registry of interactive commands: the `do_<verb>` methods of
`XgtCli`, keyed by verb, as resolved by `cmd.Cmd`'s and
`execute_command_and_exit`'s `do_`-name lookup. -/
def commandTable : List (String × (Session → String → HRes)) :=
  [("cancel", do_cancel), ("config", do_config), ("debug", do_debug),
   ("default_namespace", do_default_namespace), ("drop", do_drop),
   ("exit", do_exit), ("EOF", do_EOF), ("job", do_job), ("jobs", do_jobs),
   ("memory", do_memory), ("namespaces", do_namespaces), ("query", do_query),
   ("save", do_save), ("schema", do_schema), ("scroll", do_scroll),
   ("show", do_show), ("show_frames", do_show_frames),
   ("verbose", do_verbose), ("version", do_version),
   ("user_labels", do_user_labels), ("zap", do_zap)]

/-- One observable event of the script driver
(`execute_file_and_exit`): a successful dispatch carrying the handler's
returned termination signal, an unknown-verb diagnostic, or a caught
per-line exception — each tagged with the 1-based line number it is
reported with. -/
inductive ScriptEvent where
  | dispatched (lineNum : Nat) (verb : String) (args : String) (ret : Bool)
  | unknown (lineNum : Nat) (verb : String)
  | errorLine (lineNum : Nat) (line : String) (msg : String)
  deriving Repr, DecidableEq

/-- The line number a script event is reported with. -/
def ScriptEvent.num : ScriptEvent → Nat
  | ScriptEvent.dispatched n _ _ _ => n
  | ScriptEvent.unknown n _ => n
  | ScriptEvent.errorLine n _ _ => n

/-- Whether a script event is a handler returning the termination
signal (the `if result: break` of the source). -/
def ScriptEvent.isTerm : ScriptEvent → Bool
  | ScriptEvent.dispatched _ _ _ r => r
  | _ => false

/-- The line-processing loop of `XgtCli.execute_file_and_exit`
(src/xgtsh.py:556-582), parametrised by the dispatch relation
(`hasattr`/`getattr` on `do_<verb>`): `none` is an unknown verb,
`some (Except.error e)` a handler exception caught by the per-line
`except`, `some (Except.ok b)` a normal return.  `n` is the 1-based
number of the first remaining line (`enumerate(f, 1)`). -/
def runScript (dispatch : String → String → Option (Except String Bool)) :
    List String → Nat → List ScriptEvent
  | [], _ => []
  | line :: rest, n =>
    let l := pyStrip line
    if l = "" ∨ strStartsWith l "#" then runScript dispatch rest (n + 1)
    else
      let va := splitVerb l
      match dispatch va.1 va.2 with
      | none => ScriptEvent.unknown n va.1 :: runScript dispatch rest (n + 1)
      | some (Except.error e) =>
          ScriptEvent.errorLine n l e :: runScript dispatch rest (n + 1)
      | some (Except.ok b) =>
          ScriptEvent.dispatched n va.1 va.2 b ::
            (if b then [] else runScript dispatch rest (n + 1))

/-- Whether the script driver skips a raw line: blank after strip, or
first non-space character `#`. -/
def skipsLine (line : String) : Bool :=
  pyStrip line = "" || strStartsWith (pyStrip line) "#"

/-!
Concrete fixtures used by counterexamples and witnesses.
-/

/-- A connected server holding no data. -/
def emptyServer : Server where
  namespaces := []
  default_namespace := ""
  jobs := []
  config := []
  set_config_error := none
  frame_by_name := fun _ => none
  frames_of := fun _ _ => []
  all_frames := fun _ => []
  frame_labels := fun _ => { create := [], read := [], update := [], delete := [] }
  user_labels_result := Except.ok []
  server_version := "2.0.2"
  max_user_memory := 0
  free_user_memory := 0
  query_data := fun _ => []

/-- A disconnected session (connection failed, handle is `None`). -/
def sessionNone : Session :=
  { server := none, verbose := false, debug := false, xgt_version := (2, 0, 2) }

/-- A connected session against the empty server. -/
def sessionEmpty : Session :=
  { server := some emptyServer, verbose := false, debug := false,
    xgt_version := (2, 0, 2) }

/-- A job record whose status is `unknown_job_status` and which carries
no optional diagnostics. -/
def jobUnknown : Job :=
  { id := 7, user := "alice", status := "unknown_job_status",
    start_time := 100, end_time := 160, description := "",
    query_plan := none, visited_edges := none, total_visited_edges := none,
    timing := none, timingInternal := none, schema := none, reprString := "" }

/-- A running job record. -/
def jobRunning : Job := { jobUnknown with id := 8, status := "running" }

/-- A completed job record. -/
def jobDone : Job := { jobUnknown with id := 9, status := "completed" }

/-- A server whose namespace `g` holds one vertex frame with 5 rows but
3 vertices (and nothing else). -/
def showServer : Server :=
  { emptyServer with
    frames_of := fun ns kind =>
      if ns = "g" ∧ kind = "vertex" then
        [{ name := "v1", num_rows := 5, num_vertices := 3, num_edges := 0 }]
      else [] }

/-- A session connected to `showServer`, verbosity off. -/
def sessionShow : Session := { sessionEmpty with server := some showServer }

/-- A session connected to the empty server under xgt 1.14.0 (the bulk
`drop_frames` path of `do_zap`). -/
def sessionZapNew : Session := { sessionEmpty with xgt_version := (1, 14, 0) }

/-- A server whose namespace `g` holds one edge, one table and one
vertex frame. -/
def zapServer : Server :=
  { emptyServer with
    frames_of := fun ns kind =>
      if ns = "g" then
        if kind = "edge" then
          [{ name := "e1", num_rows := 0, num_vertices := 0, num_edges := 4 }]
        else if kind = "table" then
          [{ name := "t1", num_rows := 2, num_vertices := 0, num_edges := 0 }]
        else if kind = "vertex" then
          [{ name := "v1", num_rows := 3, num_vertices := 3, num_edges := 0 }]
        else []
      else [] }

/-- A session connected to `zapServer` under xgt 1.13.2 (the per-kind
legacy path of `do_zap`). -/
def sessionZapOld : Session :=
  { sessionEmpty with server := some zapServer, xgt_version := (1, 13, 2) }

/-!
Claim theorems.
-/

/-- C1 counterexample: the claim says a job whose status is
`unknown_job_status` gets no timing block, but `__process_job_command`
only special-cases `running` and `scheduled` (the `unknown_job_status`
early return at src/xgtsh.py:657-658 is commented out), so `jobUnknown`
does get timing lines. -/
theorem C1_counterexample :
    ¬ ((jobUnknown.status = "scheduled" ∨ jobUnknown.status = "unknown_job_status")
        → timingBlock jobUnknown = []) := by
  decide

/-- C1 (amended): in a job report block the timing lines follow the
header directly; a `running` job shows only the start time; any status
other than `running` and `scheduled` — including `unknown_job_status` —
shows start time, end time, and duration computed as end − start; only
a `scheduled` job gets no timing block. -/
theorem C1_amended_timing (j : Job) :
    (j.status = "running" →
      timingBlock j = ["  start time: " ++ toString j.start_time])
  ∧ (j.status ≠ "running" → j.status ≠ "scheduled" →
      timingBlock j =
        ["    start time: " ++ toString j.start_time,
         "      end time: " ++ toString j.end_time,
         "      duration: " ++ toString (j.end_time - j.start_time)])
  ∧ (j.status = "scheduled" → timingBlock j = [])
  ∧ jobBlock j = ("Job #" ++ toString j.id ++ ", username: " ++ j.user
        ++ ", status " ++ j.status ++ ":") :: (timingBlock j ++ jobTail j) := by
  refine ⟨?_, ?_, ?_, rfl⟩
  · intro h; simp [timingBlock, h]
  · intro h1 h2; simp [timingBlock, h1, h2]
  · intro h1; simp [timingBlock, h1]

/-- C1 witness: the amended statement evaluated on a running job and on
the `unknown_job_status` job. -/
theorem C1_amended_timing_witness :
    timingBlock jobRunning = ["  start time: " ++ toString (100 : Int)]
  ∧ timingBlock jobUnknown =
      ["    start time: " ++ toString (100 : Int),
       "      end time: " ++ toString (160 : Int),
       "      duration: " ++ toString ((160 : Int) - 100)] :=
  ⟨(C1_amended_timing jobRunning).1 rfl,
   (C1_amended_timing jobUnknown).2.1 (by decide) (by decide)⟩

/-- C2 counterexample: with the server handle absent, `do_save` does
not print "Not connected to a server"; its bare `except` around the
attribute access reports the frame as nonexistent instead. -/
theorem C2_counterexample :
    sessionNone.server = none
  ∧ (do_save sessionNone "f g").out = ["Frame f does not exist"]
  ∧ "Not connected to a server" ∉ (do_save sessionNone "f g").out := by
  refine ⟨rfl, by decide, by decide⟩

/-- C2 (amended): with the server handle absent, the handlers for
cancel, config, job, jobs, show, and zap print "Not connected to a
server" and return `False` with no service call; but
`default_namespace` and `drop` (with a nonempty argument) raise an
uncaught `AttributeError`, while `save`, `schema`, and `scroll` report
the frame as nonexistent instead of reporting the missing
connection. -/
theorem C2_amended (v d : Bool) (ver : Nat × Nat × Nat) (line : String) :
    (do_cancel ⟨none, v, d, ver⟩ line = notConnected ⟨none, v, d, ver⟩)
  ∧ (do_config ⟨none, v, d, ver⟩ line = notConnected ⟨none, v, d, ver⟩)
  ∧ (do_job ⟨none, v, d, ver⟩ line = notConnected ⟨none, v, d, ver⟩)
  ∧ (do_jobs ⟨none, v, d, ver⟩ line = notConnected ⟨none, v, d, ver⟩)
  ∧ (do_show ⟨none, v, d, ver⟩ line = notConnected ⟨none, v, d, ver⟩)
  ∧ (do_zap ⟨none, v, d, ver⟩ line = notConnected ⟨none, v, d, ver⟩)
  ∧ ((do_default_namespace ⟨none, v, d, ver⟩ line).ret
      = Except.error "AttributeError")
  ∧ (1 ≤ line.length →
      (do_drop ⟨none, v, d, ver⟩ line).ret = Except.error "AttributeError")
  ∧ (2 ≤ (pySplit line).length →
      (do_save ⟨none, v, d, ver⟩ line).out
        = ["Frame " ++ (pySplit line).get! 0 ++ " does not exist"]
      ∧ (do_save ⟨none, v, d, ver⟩ line).calls = [])
  ∧ ((do_schema ⟨none, v, d, ver⟩ line).out
      = ["Showing schema of frame " ++ line, "Frame " ++ line ++ " does not exist"])
  ∧ ((do_scroll ⟨none, v, d, ver⟩ line).out
      = ["Frame " ++ line ++ " does not exist"]) := by
  refine ⟨rfl, rfl, rfl, rfl, rfl, rfl, ?_, ?_, ?_, rfl, rfl⟩
  · unfold do_default_namespace
    split <;> rfl
  · intro h
    unfold do_drop
    rw [if_neg (by omega)]
    rfl
  · intro h
    unfold do_save
    rw [if_neg (by omega)]
    exact ⟨rfl, rfl⟩

/-- C2 witness: the amended statement evaluated at a disconnected
session on the line `f g`. -/
theorem C2_amended_witness :
    (do_cancel ⟨none, false, false, (2, 0, 2)⟩ "f g"
      = notConnected ⟨none, false, false, (2, 0, 2)⟩)
  ∧ (do_drop ⟨none, false, false, (2, 0, 2)⟩ "f g").ret
      = Except.error "AttributeError"
  ∧ (do_save ⟨none, false, false, (2, 0, 2)⟩ "f g").out
      = ["Frame f does not exist"] :=
  ⟨(C2_amended false false (2, 0, 2) "f g").1,
   (C2_amended false false (2, 0, 2) "f g").2.2.2.2.2.2.2.1 (by decide),
   ((C2_amended false false (2, 0, 2) "f g").2.2.2.2.2.2.2.2.1 (by decide)).1⟩

/-- C3 counterexample: `config set a = b c` has five tokens — a
malformed token count — yet `do_config` still invokes `set_config`
(the extra token is silently ignored), contradicting "set_config is
never invoked". -/
theorem C3_counterexample :
    (pySplit "set a = b c").length = 5
  ∧ (do_config sessionEmpty "set a = b c").calls
      = [SvcCall.set_config "a" (ConfigValue.s "b")] := by
  refine ⟨by decide, by decide⟩

/-- C3 (amended): only a `config set` line whose third token exists and
differs from `=` is reported ("Unknown config parameters") with no
service call; a `set` line with fewer than three tokens — or exactly
three, so the value index is out of range — raises an uncaught
`IndexError` instead of a usage message; and a line whose first token
is `set` and third token is `=` invokes `set_config` whenever a fourth
token exists, even with extra trailing tokens. -/
theorem C3_amended (v d : Bool) (ver : Nat × Nat × Nat) (srv : Server)
    (line : String) :
    ((pySplit line).head? = some "set" → (pySplit line).length ≤ 2 →
      do_config ⟨some srv, v, d, ver⟩ line
        = mkErr ⟨some srv, v, d, ver⟩ [] [] "IndexError")
  ∧ ((pySplit line).head? = some "set" → (pySplit line).get? 2 = some "=" →
      (pySplit line).length = 3 →
      do_config ⟨some srv, v, d, ver⟩ line
        = mkErr ⟨some srv, v, d, ver⟩ [] [] "IndexError")
  ∧ (∀ t2, (pySplit line).head? = some "set" → (pySplit line).get? 2 = some t2 →
      t2 ≠ "=" →
      do_config ⟨some srv, v, d, ver⟩ line
        = mkOk ⟨some srv, v, d, ver⟩
            ["Unknown config parameters: " ++ pyListRepr (pySplit line)] [])
  ∧ (∀ value, (pySplit line).head? = some "set" →
      (pySplit line).get? 2 = some "=" → (pySplit line).get? 3 = some value →
      (do_config ⟨some srv, v, d, ver⟩ line).calls
        = [SvcCall.set_config ((pySplit line).get! 1) (coerceValue value)]) := by
  have hhead : ∀ x : String, (pySplit line).head? = some x →
      (pySplit line).head! = x ∧ ¬ (pySplit line).length < 1 := by
    intro x hx
    cases h : pySplit line with
    | nil => rw [h] at hx; exact absurd hx (by simp)
    | cons a l =>
        rw [h] at hx
        simp only [List.head?_cons, Option.some.injEq] at hx
        subst hx
        exact ⟨by simp [h], by simp [h]⟩
  refine ⟨?_, ?_, ?_, ?_⟩
  · intro h1 h2
    obtain ⟨he, hl⟩ := hhead _ h1
    have hg : (pySplit line).get? 2 = none := by
      rw [List.get?_eq_none]; omega
    simp only [do_config]
    rw [if_neg hl, if_pos he]
    simp only [hg]
  · intro h1 h2 h3
    obtain ⟨he, hl⟩ := hhead _ h1
    have hg3 : (pySplit line).get? 3 = none := by
      rw [List.get?_eq_none]; omega
    simp only [do_config]
    rw [if_neg hl, if_pos he]
    simp only [h2, hg3, reduceIte]
  · intro t2 h1 h2 hne
    obtain ⟨he, hl⟩ := hhead _ h1
    simp only [do_config]
    rw [if_neg hl, if_pos he]
    simp only [h2, if_neg hne]
  · intro value h1 h2 h3
    obtain ⟨he, hl⟩ := hhead _ h1
    simp only [do_config]
    rw [if_neg hl, if_pos he]
    simp only [h2, h3, reduceIte]
    cases srv.set_config_error <;> rfl

/-- C3 witness: the amended statement evaluated on `config set a`
(IndexError) and `config set x = 7` (coerced call). -/
theorem C3_amended_witness :
    do_config sessionEmpty "set a" = mkErr sessionEmpty [] [] "IndexError"
  ∧ (do_config sessionEmpty "set x = 7").calls
      = [SvcCall.set_config "x" (ConfigValue.i 7)] :=
  ⟨(C3_amended false false (2, 0, 2) emptyServer "set a").1
      (by decide) (by decide),
   (C3_amended false false (2, 0, 2) emptyServer "set x = 7").2.2.2 "7"
      (by decide) (by decide) (by decide)⟩

/-- C4 counterexample: `zap` on a namespace with no frames reports
"Deleted 0 frames in namespace ns", never "No frames found", and on
the bulk path (xgt ≥ 1.14.0) a `drop_frames` call is still issued. -/
theorem C4_counterexample :
    emptyServer.all_frames "ns" = []
  ∧ (do_zap sessionZapNew "ns").out = ["Deleted 0 frames in namespace ns"]
  ∧ "No frames found" ∉ (do_zap sessionZapNew "ns").out
  ∧ (do_zap sessionZapNew "ns").calls
      = [SvcCall.get_frames "ns" none, SvcCall.drop_frames []] := by
  refine ⟨rfl, by decide, by decide, by decide⟩

/-- The frame name dropped by a `drop_frame` call, if any. -/
def dropName : SvcCall → Option String := fun c =>
  match c with
  | SvcCall.drop_frame n => some n
  | _ => none

/-- Extracting the dropped names from a per-frame `drop_frame` trace
recovers exactly the frame names, in order. -/
theorem filterMap_dropName (l : List Frame) :
    List.filterMap (dropName ∘ fun f => SvcCall.drop_frame f.name) l
      = List.map Frame.name l := by
  induction l with
  | nil => rfl
  | cons a t ih => simp [List.filterMap_cons, dropName, Function.comp, ih]

/-- C4 (amended): on a client older than 1.14.0, `zap <ns>` drops
edges first, then tables, then vertices via individual `drop_frame`
calls and reports N+M+K frames deleted; an empty namespace yields no
`drop_frame` call and the report "Deleted 0 frames in namespace <ns>"
(not "No frames found"); on 1.14.0 or newer a single bulk
`drop_frames` call deletes everything and the reported count is the
number of frames returned. -/
theorem C4_amended (v d : Bool) (ver : Nat × Nat × Nat) (srv : Server)
    (line ns : String) (hns : (pySplit line).head? = some ns) :
    (version_is_since ver 1 14 0 = false →
      ((do_zap ⟨some srv, v, d, ver⟩ line).calls.filterMap dropName
          = (srv.frames_of ns "edge").map Frame.name
            ++ (srv.frames_of ns "table").map Frame.name
            ++ (srv.frames_of ns "vertex").map Frame.name)
      ∧ (do_zap ⟨some srv, v, d, ver⟩ line).out.getLast?
          = some ("Deleted "
              ++ toString ((srv.frames_of ns "table").length
                  + (srv.frames_of ns "vertex").length
                  + (srv.frames_of ns "edge").length)
              ++ " frames in namespace " ++ ns))
  ∧ (version_is_since ver 1 14 0 = false →
      srv.frames_of ns "edge" = [] → srv.frames_of ns "table" = [] →
      srv.frames_of ns "vertex" = [] →
      (do_zap ⟨some srv, v, d, ver⟩ line).calls.filterMap dropName = []
      ∧ (do_zap ⟨some srv, v, d, ver⟩ line).out
          = ["Deleted 0 frames in namespace " ++ ns])
  ∧ (version_is_since ver 1 14 0 = true →
      (do_zap ⟨some srv, v, d, ver⟩ line).calls
        = [SvcCall.get_frames ns none,
           SvcCall.drop_frames ((srv.all_frames ns).map Frame.name)]
      ∧ (do_zap ⟨some srv, v, d, ver⟩ line).out
        = ["Deleted " ++ toString (srv.all_frames ns).length
            ++ " frames in namespace " ++ ns]) := by
  have hhead : (pySplit line).head! = ns ∧ ¬ (pySplit line).length < 1 := by
    cases h : pySplit line with
    | nil => rw [h] at hns; exact absurd hns (by simp)
    | cons a l =>
        rw [h] at hns
        simp only [List.head?_cons, Option.some.injEq] at hns
        subst hns
        exact ⟨by simp [h], by simp [h]⟩
  obtain ⟨he, hl⟩ := hhead
  refine ⟨?_, ?_, ?_⟩
  · intro hver
    simp only [do_zap]
    rw [if_neg hl, he, hver]
    simp only [Bool.false_eq_true, if_false]
    constructor
    · simp [mkOk, dropName, List.filterMap_cons, List.filterMap_append,
        List.filterMap_map, filterMap_dropName]
    · simp [mkOk, List.getLast?_append]
  · intro hver h1 h2 h3
    simp only [do_zap]
    rw [if_neg hl, he, hver]
    simp only [Bool.false_eq_true, if_false]
    rw [h1, h2, h3]
    refine ⟨by simp [mkOk, dropName], ?_⟩
    simp only [mkOk, List.map_nil, ite_self, List.nil_append, List.length_nil]
    rfl
  · intro hver
    simp only [do_zap]
    rw [if_neg hl, he, hver]
    exact ⟨rfl, rfl⟩

/-- C4 witness: the amended statement on the legacy path with one edge,
one table, and one vertex frame, and on the bulk path with an empty
namespace. -/
theorem C4_amended_witness :
    ((do_zap sessionZapOld "g").calls.filterMap dropName = ["e1", "t1", "v1"]
      ∧ (do_zap sessionZapOld "g").out.getLast?
          = some "Deleted 3 frames in namespace g")
  ∧ ((do_zap sessionZapNew "g").calls
      = [SvcCall.get_frames "g" none, SvcCall.drop_frames []]
      ∧ (do_zap sessionZapNew "g").out = ["Deleted 0 frames in namespace g"]) :=
  ⟨(C4_amended false false (1, 13, 2) zapServer "g" "g" (by decide)).1
      (by decide),
   (C4_amended false false (1, 14, 0) emptyServer "g" "g" (by decide)).2.2
      (by decide)⟩

/-- C5: the vertex running total of `do_show` accumulates
`vertex.num_rows` (src/xgtsh.py:337) while each printed line shows
`vertex.num_vertices`, so on a vertex frame with 5 rows and 3 vertices
the report prints "3 vertices" but totals 5 — contradicting its own
"Total vertices" label and the claim's kind-appropriate sum, which is
3 here. -/
theorem C5_code_bug :
    (do_show sessionShow "g").out =
      ["Total table rows over all frames: 0",
       "VertexFrame v1 has 3 vertices",
       "Total vertices over all frames: 5",
       "Total edges over all frames: 0"]
  ∧ (((showServer.frames_of "g" "vertex").filter (showFilter false)).map
        Frame.num_vertices).sum = 3
  ∧ (((showServer.frames_of "g" "vertex").filter (showFilter false)).map
        Frame.num_rows).sum = 5 := by
  refine ⟨by decide, by decide, by decide⟩

/-- Membership in `intRangeAux`. -/
theorem mem_intRangeAux {i : Int} : ∀ {n : Nat} {s : Int},
    i ∈ intRangeAux s n ↔ s ≤ i ∧ i < s + n := by
  intro n
  induction n with
  | zero => intro s; simp [intRangeAux]
  | succ n ih =>
      intro s
      simp only [intRangeAux, List.mem_cons, ih]
      push_cast
      omega

/-- Membership in the embedded `range(s, e + 1)`. -/
theorem mem_intRange {s e i : Int} : i ∈ intRange s e ↔ s ≤ i ∧ i ≤ e := by
  unfold intRange
  rw [mem_intRangeAux]
  omega

/-- `intRangeAux` is strictly ascending. -/
theorem pairwise_intRangeAux : ∀ (n : Nat) (s : Int),
    (intRangeAux s n).Pairwise (· < ·) := by
  intro n
  induction n with
  | zero => intro s; simp [intRangeAux]
  | succ n ih =>
      intro s
      refine List.Pairwise.cons ?_ (ih (s + 1))
      intro b hb
      rw [mem_intRangeAux] at hb
      omega

/-- The embedded `range(s, e + 1)` is strictly ascending. -/
theorem pairwise_intRange (s e : Int) : (intRange s e).Pairwise (· < ·) :=
  pairwise_intRangeAux _ s

/-- `find?` succeeds exactly when some element satisfies the predicate. -/
theorem find?_isSome_iff {α : Type} (p : α → Bool) (l : List α) :
    (l.find? p).isSome = true ↔ ∃ x ∈ l, p x = true := by
  induction l with
  | nil => simp [List.find?]
  | cons a t ih =>
      by_cases h : p a
      · simp [List.find?, h]
      · simp [List.find?, h, ih]

/-- The `jobs_map` dict has a binding for `i` exactly when some job in
the list has id `i`. -/
theorem jobsMap_isSome (jobs : List Job) (i : Int) :
    (jobsMap jobs i).isSome = true ↔ ∃ j ∈ jobs, j.id = i := by
  unfold jobsMap
  rw [find?_isSome_iff]
  simp

/-- Looping over a list while skipping ids with no binding equals
looping over the pre-filtered ids. -/
theorem flatMap_skip_none {α β γ : Type} (o : α → Option β) (f : β → List γ)
    (l : List α) :
    (l.flatMap (fun i => ((o i).map f).getD []))
      = (l.filter (fun i => (o i).isSome)).flatMap
          (fun i => ((o i).map f).getD []) := by
  induction l with
  | nil => rfl
  | cons a t ih =>
      cases h : o a <;> simp [List.flatMap_cons, List.filter_cons, h, ih]

/-- The ids whose blocks the `job` range loop prints. -/
def printedJobIds (jobs : List Job) (s e : Int) : List Int :=
  (intRange s e).filter (fun i => (jobsMap jobs i).isSome)

/-- C6: for a `job <start> [end]` invocation with valid integer
arguments, the printed job blocks are exactly those of the ids in
`{start..end}` that belong to known jobs, in ascending id order, and
ids missing from the job set contribute nothing (no error output). -/
theorem C6_job_range (jobs : List Job) (s e : Int) :
    (∀ i : Int, i ∈ printedJobIds jobs s e ↔
        (s ≤ i ∧ i ≤ e ∧ ∃ j ∈ jobs, j.id = i))
  ∧ (printedJobIds jobs s e).Pairwise (· < ·)
  ∧ jobRangeOutput jobs s e
      = (printedJobIds jobs s e).flatMap
          (fun i => ((jobsMap jobs i).map jobBlock).getD []) := by
  refine ⟨?_, ?_, ?_⟩
  · intro i
    simp [printedJobIds, List.mem_filter, mem_intRange, jobsMap_isSome,
      and_assoc]
  · exact List.Pairwise.filter _ (pairwise_intRange s e)
  · exact flatMap_skip_none (jobsMap jobs) jobBlock (intRange s e)

/-- C7: in a well-formed `config set <param> = <value>` line, a value
case-insensitively equal to `true`/`false` becomes the corresponding
boolean, a purely numeric value (optionally with a leading minus)
becomes an integer, and everything else is passed through as the
original string — anchored on the spec's own examples. -/
theorem C7_coerce (value : String) :
    (strToLower value = "true" → coerceValue value = ConfigValue.b true)
  ∧ (strToLower value = "false" → coerceValue value = ConfigValue.b false)
  ∧ (strToLower value ≠ "true" → strToLower value ≠ "false" →
      pyIsNumeric value = true → coerceValue value = ConfigValue.i (pyInt value))
  ∧ (strToLower value ≠ "true" → strToLower value ≠ "false" →
      value.data.head? = some '-' →
      pyIsNumeric (String.mk value.data.tail) = true →
      coerceValue value = ConfigValue.i (pyInt value))
  ∧ (strToLower value ≠ "true" → strToLower value ≠ "false" →
      pyIsNumeric value = false →
      ¬ (value.data.head? = some '-'
          ∧ pyIsNumeric (String.mk value.data.tail) = true) →
      coerceValue value = ConfigValue.s value)
  ∧ coerceValue "5" = ConfigValue.i 5
  ∧ coerceValue "true" = ConfigValue.b true
  ∧ coerceValue "TRUE" = ConfigValue.b true
  ∧ coerceValue "-17" = ConfigValue.i (-17)
  ∧ coerceValue "hello" = ConfigValue.s "hello" := by
  refine ⟨?_, ?_, ?_, ?_, ?_, by decide, by decide, by decide, by decide,
    by decide⟩
  · intro h
    simp [coerceValue, h]
  · intro h
    simp [coerceValue, h]
  · intro h1 h2 h3
    unfold coerceValue
    rw [if_neg (by simp [h1, h2]), if_pos (Or.inl h3)]
  · intro h1 h2 h3 h4
    unfold coerceValue
    rw [if_neg (by simp [h1, h2]), if_pos (Or.inr ⟨h3, h4⟩)]
  · intro h1 h2 h3 h4
    unfold coerceValue
    rw [if_neg (by simp [h1, h2]),
      if_neg (fun hc => hc.elim
        (fun hc1 => by rw [h3] at hc1; exact Bool.noConfusion hc1)
        (fun hc2 => h4 hc2))]

/-- C7 witness: the coercion cases evaluated at `42` and at `abc`. -/
theorem C7_coerce_witness :
    coerceValue "42" = ConfigValue.i (pyInt "42")
  ∧ coerceValue "abc" = ConfigValue.s "abc" :=
  ⟨(C7_coerce "42").2.2.1 (by decide) (by decide) (by decide),
   (C7_coerce "abc").2.2.2.2.1 (by decide) (by decide) (by decide) (by decide)⟩

/-- C8: namespace completion returns exactly the service's namespace
names that start with the partial token, and the empty list (rather
than failing) on a disconnected session. -/
theorem C8_namespace_complete (srv : Server) (v d : Bool)
    (ver : Nat × Nat × Nat) (text line : String) (b e : Nat) :
    (∀ s : String,
        s ∈ namespace_complete ⟨some srv, v, d, ver⟩ text line b e ↔
          (s ∈ srv.namespaces ∧ strStartsWith s text = true))
  ∧ namespace_complete ⟨none, v, d, ver⟩ text line b e = [] := by
  refine ⟨?_, rfl⟩
  intro s
  simp [namespace_complete, List.mem_filter]

/-- Soundness of one script event against the raw line it was produced
from: the verb/args are the split of the stripped line and the event
kind agrees with what the dispatch returned. -/
def evMatches (dispatch : String → String → Option (Except String Bool))
    (l : String) : ScriptEvent → Prop
  | ScriptEvent.dispatched _ v a r =>
      (v, a) = splitVerb (pyStrip l) ∧ dispatch v a = some (Except.ok r)
  | ScriptEvent.unknown _ v =>
      v = (splitVerb (pyStrip l)).1
        ∧ dispatch v (splitVerb (pyStrip l)).2 = none
  | ScriptEvent.errorLine _ l' e =>
      l' = pyStrip l
        ∧ dispatch (splitVerb l').1 (splitVerb l').2 = some (Except.error e)

/-- A line the driver does not skip has `skipsLine` false. -/
theorem skipsLine_eq_false {l : String}
    (h : ¬ (pyStrip l = "" ∨ strStartsWith (pyStrip l) "#" = true)) :
    skipsLine l = false := by
  push_neg at h
  simp [skipsLine, h.1, h.2]

/-- Every script event is reported with the 1-based number (relative to
the start index `n`) of a non-skipped line, and its content is sound
for that line. -/
theorem runScript_mem (dispatch : String → String → Option (Except String Bool)) :
    ∀ (lines : List String) (n : Nat), ∀ ev ∈ runScript dispatch lines n,
      n ≤ ev.num ∧ ∃ l, lines.get? (ev.num - n) = some l
        ∧ skipsLine l = false ∧ evMatches dispatch l ev := by
  intro lines
  induction lines with
  | nil =>
      intro n ev hev
      simp [runScript] at hev
  | cons line rest ih =>
      intro n ev hev
      simp only [runScript] at hev
      by_cases hc : pyStrip line = "" ∨ strStartsWith (pyStrip line) "#" = true
      · rw [if_pos hc] at hev
        obtain ⟨h1, l, hl, hskip, hm⟩ := ih (n + 1) ev hev
        refine ⟨by omega, l, ?_, hskip, hm⟩
        have hidx : ev.num - n = (ev.num - (n + 1)) + 1 := by omega
        rw [hidx]
        simpa using hl
      · rw [if_neg hc] at hev
        have hskip := skipsLine_eq_false hc
        have tailCase : ev ∈ runScript dispatch rest (n + 1) →
            n ≤ ev.num ∧ ∃ l, (line :: rest).get? (ev.num - n) = some l
              ∧ skipsLine l = false ∧ evMatches dispatch l ev := by
          intro hev'
          obtain ⟨h1, l, hl, hskip', hm⟩ := ih (n + 1) ev hev'
          refine ⟨by omega, l, ?_, hskip', hm⟩
          have hidx : ev.num - n = (ev.num - (n + 1)) + 1 := by omega
          rw [hidx]
          simpa using hl
        cases hd : dispatch (splitVerb (pyStrip line)).1
            (splitVerb (pyStrip line)).2 with
        | none =>
            rw [hd] at hev
            rcases List.mem_cons.1 hev with rfl | hev'
            · exact ⟨le_refl n, line, by simp [ScriptEvent.num], hskip, rfl, hd⟩
            · exact tailCase hev'
        | some x =>
            rw [hd] at hev
            cases x with
            | error e =>
                rcases List.mem_cons.1 hev with rfl | hev'
                · exact ⟨le_refl n, line, by simp [ScriptEvent.num], hskip, rfl, hd⟩
                · exact tailCase hev'
            | ok b =>
                rcases List.mem_cons.1 hev with rfl | hev'
                · exact ⟨le_refl n, line, by simp [ScriptEvent.num], hskip, rfl, hd⟩
                · cases b with
                  | true => simp at hev'
                  | false => exact tailCase hev'

/-- Script events carry strictly increasing line numbers. -/
theorem runScript_pairwise
    (dispatch : String → String → Option (Except String Bool)) :
    ∀ (lines : List String) (n : Nat),
      (runScript dispatch lines n).Pairwise (fun a b => a.num < b.num) := by
  intro lines
  induction lines with
  | nil => intro n; simp [runScript]
  | cons line rest ih =>
      intro n
      simp only [runScript]
      by_cases hc : pyStrip line = "" ∨ strStartsWith (pyStrip line) "#" = true
      · rw [if_pos hc]
        exact ih (n + 1)
      · rw [if_neg hc]
        have hcons : ∀ ev : ScriptEvent, ev.num = n →
            (ev :: runScript dispatch rest (n + 1)).Pairwise
              (fun a b => a.num < b.num) := by
          intro ev hevn
          refine List.Pairwise.cons ?_ (ih (n + 1))
          intro b hb
          have := (runScript_mem dispatch rest (n + 1) b hb).1
          omega
        cases hd : dispatch (splitVerb (pyStrip line)).1
            (splitVerb (pyStrip line)).2 with
        | none => exact hcons _ rfl
        | some x =>
            cases x with
            | error e => exact hcons _ rfl
            | ok b =>
                cases b with
                | true => simp
                | false => exact hcons _ rfl

/-- Once a handler signals termination, no further event follows. -/
theorem runScript_stop
    (dispatch : String → String → Option (Except String Bool)) :
    ∀ (lines : List String) (n : Nat) (l₁ : List ScriptEvent)
      (ev : ScriptEvent) (l₂ : List ScriptEvent),
      runScript dispatch lines n = l₁ ++ ev :: l₂ → ev.isTerm = true →
        l₂ = [] := by
  intro lines
  induction lines with
  | nil =>
      intro n l₁ ev l₂ h _
      exact absurd h.symm (by simp [runScript])
  | cons line rest ih =>
      intro n l₁ ev l₂ h hterm
      simp only [runScript] at h
      by_cases hc : pyStrip line = "" ∨ strStartsWith (pyStrip line) "#" = true
      · rw [if_pos hc] at h
        exact ih (n + 1) l₁ ev l₂ h hterm
      · rw [if_neg hc] at h
        cases hd : dispatch (splitVerb (pyStrip line)).1
            (splitVerb (pyStrip line)).2 with
        | none =>
            rw [hd] at h
            cases l₁ with
            | nil =>
                simp only [List.nil_append, List.cons.injEq] at h
                rw [← h.1] at hterm
                exact absurd hterm (by simp [ScriptEvent.isTerm])
            | cons e l₁' =>
                simp only [List.cons_append, List.cons.injEq] at h
                exact ih (n + 1) l₁' ev l₂ h.2 hterm
        | some x =>
            rw [hd] at h
            cases x with
            | error e2 =>
                cases l₁ with
                | nil =>
                    simp only [List.nil_append, List.cons.injEq] at h
                    rw [← h.1] at hterm
                    exact absurd hterm (by simp [ScriptEvent.isTerm])
                | cons e l₁' =>
                    simp only [List.cons_append, List.cons.injEq] at h
                    exact ih (n + 1) l₁' ev l₂ h.2 hterm
            | ok b =>
                cases b with
                | true =>
                    cases l₁ with
                    | nil =>
                        simp only [List.nil_append, List.cons.injEq] at h
                        exact h.2.symm
                    | cons e l₁' =>
                        simp only [List.cons_append, List.cons.injEq] at h
                        exact absurd h.2.symm (by simp)
                | false =>
                    cases l₁ with
                    | nil =>
                        simp only [List.nil_append, List.cons.injEq] at h
                        rw [← h.1] at hterm
                        exact absurd hterm (by simp [ScriptEvent.isTerm])
                    | cons e l₁' =>
                        simp only [List.cons_append, List.cons.injEq] at h
                        exact ih (n + 1) l₁' ev l₂ h.2 hterm

/-- When no handler ever signals termination, every non-skipped line
produces exactly one event. -/
theorem runScript_length
    (dispatch : String → String → Option (Except String Bool))
    (hnd : ∀ v a, dispatch v a ≠ some (Except.ok true)) :
    ∀ (lines : List String) (n : Nat),
      (runScript dispatch lines n).length
        = (lines.filter (fun l => !(skipsLine l))).length := by
  intro lines
  induction lines with
  | nil => intro n; rfl
  | cons line rest ih =>
      intro n
      simp only [runScript, List.filter_cons]
      by_cases hc : pyStrip line = "" ∨ strStartsWith (pyStrip line) "#" = true
      · rw [if_pos hc]
        have hskip : (!(skipsLine line)) = false := by
          rcases hc with hc | hc <;> simp [skipsLine, hc]
        simp only [hskip, Bool.false_eq_true, if_false]
        exact ih (n + 1)
      · rw [if_neg hc]
        have hskip : (!(skipsLine line)) = true := by
          simp [skipsLine_eq_false hc]
        simp only [hskip, if_true]
        cases hd : dispatch (splitVerb (pyStrip line)).1
            (splitVerb (pyStrip line)).2 with
        | none => simp [ih (n + 1)]
        | some x =>
            cases x with
            | error e => simp [ih (n + 1)]
            | ok b =>
                cases b with
                | true => exact absurd hd (hnd _ _)
                | false => simp [ih (n + 1)]

/-- C9: the script driver skips blank and `#`-comment lines, reports
every produced event with the correct 1-based line number of a
non-skipped line (whose stripped text it dispatched, verb split from
trailing text), reports events in increasing line order, continues
past unknown-verb and per-line errors (one event per non-skipped line
when no handler terminates), and stops immediately after a handler
returns the termination signal. -/
theorem C9_script_driver
    (dispatch : String → String → Option (Except String Bool))
    (lines : List String) :
    (∀ ev ∈ runScript dispatch lines 1,
        1 ≤ ev.num ∧ ∃ l, lines.get? (ev.num - 1) = some l
          ∧ skipsLine l = false ∧ evMatches dispatch l ev)
  ∧ (runScript dispatch lines 1).Pairwise (fun a b => a.num < b.num)
  ∧ (∀ (l₁ : List ScriptEvent) (ev : ScriptEvent) (l₂ : List ScriptEvent),
        runScript dispatch lines 1 = l₁ ++ ev :: l₂ → ev.isTerm = true →
          l₂ = [])
  ∧ ((∀ v a, dispatch v a ≠ some (Except.ok true)) →
        (runScript dispatch lines 1).length
          = (lines.filter (fun l => !(skipsLine l))).length) :=
  ⟨runScript_mem dispatch lines 1, runScript_pairwise dispatch lines 1,
   fun l₁ ev l₂ => runScript_stop dispatch lines 1 l₁ ev l₂,
   fun hnd => runScript_length dispatch hnd lines 1⟩

/-- C9 witness: the spec's scenario — a blank line, a comment line, an
unknown verb, and one more command; the driver reports exactly one
unknown-command diagnostic per unknown verb with its 1-based line
number and continues to the next line. -/
theorem C9_script_driver_witness :
    runScript (fun _ _ => none) ["", "  # note", "foo  bar", "jobs"] 1
      = [ScriptEvent.unknown 3 "foo", ScriptEvent.unknown 4 "jobs"]
  ∧ (runScript (fun _ _ => none) ["", "  # note", "foo  bar", "jobs"] 1).length
      = ((["", "  # note", "foo  bar", "jobs"].filter
            (fun l => !(skipsLine l))).length) :=
  ⟨by decide,
   (C9_script_driver (fun _ _ => none) ["", "  # note", "foo  bar", "jobs"]).2.2.2
     (fun v a h => Option.noConfusion h)⟩

/-- `do_cancel` never returns the termination signal. -/
theorem retNe_cancel (sess : Session) (line : String) :
    (do_cancel sess line).ret ≠ Except.ok true := by
  simp only [do_cancel]
  repeat' split
  all_goals simp [notConnected, mkOk, mkErr]

/-- `do_config` never returns the termination signal. -/
theorem retNe_config (sess : Session) (line : String) :
    (do_config sess line).ret ≠ Except.ok true := by
  simp only [do_config]
  repeat' split
  all_goals simp [notConnected, mkOk, mkErr]

/-- `do_debug` never returns the termination signal. -/
theorem retNe_debug (sess : Session) (line : String) :
    (do_debug sess line).ret ≠ Except.ok true := by
  simp only [do_debug]
  repeat' split
  all_goals simp [mkOk]

/-- `do_default_namespace` never returns the termination signal. -/
theorem retNe_default_namespace (sess : Session) (line : String) :
    (do_default_namespace sess line).ret ≠ Except.ok true := by
  simp only [do_default_namespace]
  repeat' split
  all_goals simp [mkOk, mkErr]

/-- `do_drop` never returns the termination signal. -/
theorem retNe_drop (sess : Session) (line : String) :
    (do_drop sess line).ret ≠ Except.ok true := by
  simp only [do_drop]
  repeat' split
  all_goals simp [mkOk, mkErr]

/-- `do_job` never returns the termination signal. -/
theorem retNe_job (sess : Session) (line : String) :
    (do_job sess line).ret ≠ Except.ok true := by
  simp only [do_job]
  repeat' split
  all_goals simp [notConnected, mkOk]

/-- `do_jobs` never returns the termination signal. -/
theorem retNe_jobs (sess : Session) (line : String) :
    (do_jobs sess line).ret ≠ Except.ok true := by
  simp only [do_jobs]
  repeat' split
  all_goals simp [notConnected, mkOk]

/-- `do_memory` never returns the termination signal. -/
theorem retNe_memory (sess : Session) (line : String) :
    (do_memory sess line).ret ≠ Except.ok true := by
  simp only [do_memory]
  repeat' split
  all_goals simp [notConnected, mkOk]

/-- `do_namespaces` never returns the termination signal. -/
theorem retNe_namespaces (sess : Session) (line : String) :
    (do_namespaces sess line).ret ≠ Except.ok true := by
  simp only [do_namespaces]
  repeat' split
  all_goals simp [notConnected, mkOk]

/-- `do_query` never returns the termination signal. -/
theorem retNe_query (sess : Session) (line : String) :
    (do_query sess line).ret ≠ Except.ok true := by
  simp only [do_query]
  repeat' split
  all_goals simp [notConnected, mkOk]

/-- `do_save` never returns the termination signal. -/
theorem retNe_save (sess : Session) (line : String) :
    (do_save sess line).ret ≠ Except.ok true := by
  simp only [do_save]
  repeat' split
  all_goals simp [mkOk]

/-- `do_schema` never returns the termination signal. -/
theorem retNe_schema (sess : Session) (line : String) :
    (do_schema sess line).ret ≠ Except.ok true := by
  simp only [do_schema]
  repeat' split
  all_goals simp [mkOk]

/-- `do_scroll` never returns the termination signal. -/
theorem retNe_scroll (sess : Session) (line : String) :
    (do_scroll sess line).ret ≠ Except.ok true := by
  simp only [do_scroll]
  repeat' split
  all_goals simp [mkOk]

/-- `do_show` never returns the termination signal. -/
theorem retNe_show (sess : Session) (line : String) :
    (do_show sess line).ret ≠ Except.ok true := by
  simp only [do_show]
  repeat' split
  all_goals simp [notConnected, mkOk]

/-- `do_show_frames` never returns the termination signal. -/
theorem retNe_show_frames (sess : Session) (line : String) :
    (do_show_frames sess line).ret ≠ Except.ok true := by
  simp only [do_show_frames]
  repeat' split
  all_goals simp [notConnected, mkOk]

/-- `do_verbose` never returns the termination signal. -/
theorem retNe_verbose (sess : Session) (line : String) :
    (do_verbose sess line).ret ≠ Except.ok true := by
  simp only [do_verbose]
  repeat' split
  all_goals simp [mkOk]

/-- `do_version` never returns the termination signal. -/
theorem retNe_version (sess : Session) (line : String) :
    (do_version sess line).ret ≠ Except.ok true := by
  simp only [do_version]
  repeat' split
  all_goals simp [mkOk]

/-- `do_user_labels` never returns the termination signal. -/
theorem retNe_user_labels (sess : Session) (line : String) :
    (do_user_labels sess line).ret ≠ Except.ok true := by
  simp only [do_user_labels]
  repeat' split
  all_goals simp [notConnected, mkOk]

/-- `do_zap` never returns the termination signal. -/
theorem retNe_zap (sess : Session) (line : String) :
    (do_zap sess line).ret ≠ Except.ok true := by
  simp only [do_zap]
  repeat' split
  all_goals simp [notConnected, mkOk]

/-- C10: every registered command handler other than `exit` and `EOF`
returns the non-termination signal on every input (it never returns
`True`), while `exit` and `EOF` do return the termination signal — so
only they can move the interactive dispatcher from RUNNING to
TERMINATED. -/
theorem C10_only_exit_terminates :
    (∀ (verb : String) (h : Session → String → HRes),
        (verb, h) ∈ commandTable → verb ≠ "exit" → verb ≠ "EOF" →
        ∀ (sess : Session) (line : String), (h sess line).ret ≠ Except.ok true)
  ∧ (∀ (sess : Session) (line : String),
        (do_exit sess line).ret = Except.ok true
        ∧ (do_EOF sess line).ret = Except.ok true) := by
  constructor
  · intro verb h hmem h1 h2 sess line
    simp only [commandTable, List.mem_cons, List.not_mem_nil, or_false,
      Prod.mk.injEq] at hmem
    obtain ⟨rfl, rfl⟩ | hmem := hmem
    · exact retNe_cancel sess line
    obtain ⟨rfl, rfl⟩ | hmem := hmem
    · exact retNe_config sess line
    obtain ⟨rfl, rfl⟩ | hmem := hmem
    · exact retNe_debug sess line
    obtain ⟨rfl, rfl⟩ | hmem := hmem
    · exact retNe_default_namespace sess line
    obtain ⟨rfl, rfl⟩ | hmem := hmem
    · exact retNe_drop sess line
    obtain ⟨rfl, rfl⟩ | hmem := hmem
    · exact absurd rfl h1
    obtain ⟨rfl, rfl⟩ | hmem := hmem
    · exact absurd rfl h2
    obtain ⟨rfl, rfl⟩ | hmem := hmem
    · exact retNe_job sess line
    obtain ⟨rfl, rfl⟩ | hmem := hmem
    · exact retNe_jobs sess line
    obtain ⟨rfl, rfl⟩ | hmem := hmem
    · exact retNe_memory sess line
    obtain ⟨rfl, rfl⟩ | hmem := hmem
    · exact retNe_namespaces sess line
    obtain ⟨rfl, rfl⟩ | hmem := hmem
    · exact retNe_query sess line
    obtain ⟨rfl, rfl⟩ | hmem := hmem
    · exact retNe_save sess line
    obtain ⟨rfl, rfl⟩ | hmem := hmem
    · exact retNe_schema sess line
    obtain ⟨rfl, rfl⟩ | hmem := hmem
    · exact retNe_scroll sess line
    obtain ⟨rfl, rfl⟩ | hmem := hmem
    · exact retNe_show sess line
    obtain ⟨rfl, rfl⟩ | hmem := hmem
    · exact retNe_show_frames sess line
    obtain ⟨rfl, rfl⟩ | hmem := hmem
    · exact retNe_verbose sess line
    obtain ⟨rfl, rfl⟩ | hmem := hmem
    · exact retNe_version sess line
    obtain ⟨rfl, rfl⟩ | hmem := hmem
    · exact retNe_user_labels sess line
    obtain ⟨rfl, rfl⟩ := hmem
    exact retNe_zap sess line
  · intro sess line
    exact ⟨rfl, rfl⟩

/-- C10 witness: applied to the `cancel` entry of the registry at a
concrete session and line, plus the `exit` side. -/
theorem C10_only_exit_terminates_witness :
    (do_cancel sessionNone "1").ret ≠ Except.ok true
  ∧ (do_exit sessionNone "").ret = Except.ok true :=
  ⟨C10_only_exit_terminates.1 "cancel" do_cancel (by simp [commandTable])
      (by decide) (by decide) sessionNone "1",
   (C10_only_exit_terminates.2 sessionNone "").1⟩

end Xgtsh
